import Mathlib

/-
Verification development for the io_uring userspace bootstrap layer
(src/io_uring.rs): a shallow embedding of the setup syscall wrapper, the
enter gateway, the repr(C) ABI structures, and the queue_mmap /init
construction path, with theorems about error handling, rollback of
mappings, region-size computation, and binary layout.

Modelling conventions:
  - machine pointers and addresses are Nat (mmap never returns an address
    here; the environment oracle decides each mapping's outcome);
  - the kernel is an oracle `Env`: the raw setup-syscall return value, the
    kernel-filled parameters block, the outcome of each mmap request
    (`none` models MAP_FAILED), and the contents of mapped memory as a
    function from address to u32 value;
  - side effects (mmap requests issued, munmap calls, close calls) are
    recorded in an `Effects` record threaded through the results;
  - Rust's assert_eq! panic is a distinct outcome constructor `panicked`,
    separate from returning an Err value.
-/

namespace Iouring

/-- Magic offsets for the application to mmap the data it needs
(io_uring.rs lines 21-23). -/
def IORING_OFF_SQ_RING : Int := 0

/-- Completion-queue ring mmap offset (io_uring.rs line 22). -/
def IORING_OFF_CQ_RING : Int := 0x8000000

/-- Submission-entry array mmap offset (io_uring.rs line 23). -/
def IORING_OFF_SQES : Int := 0x10000000

/-- libc PROT_READ on Linux. -/
def PROT_READ : Nat := 0x1

/-- libc PROT_WRITE on Linux. -/
def PROT_WRITE : Nat := 0x2

/-- libc MAP_SHARED on Linux. -/
def MAP_SHARED : Nat := 0x01

/-- libc MAP_POPULATE on Linux (x86-64 value). -/
def MAP_POPULATE : Nat := 0x008000

/-- One mmap request as issued to the operating system: address hint,
length, protection bits, flag bits, file descriptor and file offset. -/
structure MmapCall where
  addr : Nat
  len : Nat
  prot : Nat
  flags : Nat
  fd : Int
  off : Int
deriving DecidableEq

/-- The mmap helper (io_uring.rs lines 26-33): every mapping is requested
with a null address hint, PROT_READ|PROT_WRITE and MAP_SHARED|MAP_POPULATE,
against the given fd at the given offset. -/
def mmap (len : Nat) (fd : Int) (off : Int) : MmapCall :=
  { addr := 0
    len := len
    prot := Nat.lor PROT_READ PROT_WRITE
    flags := Nat.lor MAP_SHARED MAP_POPULATE
    fd := fd
    off := off }

/-
repr(C) layout calculator. A field is an (alignment, size) pair; repr(C)
places fields in declaration order, aligning each to its alignment, and
rounds the struct size up to the largest field alignment. A union occupies
the size of its largest member rounded to the union's alignment, which is
the largest member alignment. These are exactly C's rules, which Rust's
#[repr(C)] reproduces.
-/

/-- Round n up to a multiple of a (a = 0 yields n). -/
def alignUp (n a : Nat) : Nat := if a = 0 then n else ((n + a - 1) / a) * a

/-- End offset after laying out the fields starting at byte n. -/
def reprCEnd : List (Nat × Nat) → Nat → Nat
  | [], n => n
  | (a, s) :: fs, n => reprCEnd fs (alignUp n a + s)

/-- Alignment of a repr(C) struct: largest field alignment (at least 1). -/
def reprCAlign (fs : List (Nat × Nat)) : Nat :=
  fs.foldl (fun m f => max m f.1) 1

/-- Size of a repr(C) struct with the given (alignment, size) fields. -/
def reprCSize (fs : List (Nat × Nat)) : Nat :=
  alignUp (reprCEnd fs 0) (reprCAlign fs)

/-- Byte offset of the i-th field of a repr(C) struct. -/
def reprCOffset : List (Nat × Nat) → Nat → Nat
  | [], _ => 0
  | (a, _) :: _, 0 => alignUp 0 a
  | (a, s) :: fs, i + 1 => (alignUp 0 a + s) + reprCOffsetFrom fs i (alignUp 0 a + s)
where
  /-- Offset of the i-th remaining field given the current end offset n. -/
  reprCOffsetFrom : List (Nat × Nat) → Nat → Nat → Nat
    | [], _, n => n
    | (a, _) :: _, 0, n => alignUp n a - n
    | (a, s) :: fs, i + 1, n =>
        (alignUp n a + s - n) + reprCOffsetFrom fs i (alignUp n a + s)

/-- Layout of a repr(C) union with the given (alignment, size) members:
alignment is the largest member alignment, size is the largest member size
rounded up to that alignment. -/
def unionField (ms : List (Nat × Nat)) : Nat × Nat :=
  let a := ms.foldl (fun m f => max m f.1) 1
  let s := ms.foldl (fun m f => max m f.2) 0
  (a, alignUp s a)

/-- Fields of union io_uring_sqe_arg (io_uring.rs lines 76-82):
rw_flags (c_int), fsync_flags (u32), poll_events (u16),
sync_range_flags (u32). -/
def io_uring_sqe_arg_members : List (Nat × Nat) := [(4, 4), (4, 4), (2, 2), (4, 4)]

/-- Fields of union io_uring_sqe_idx (io_uring.rs lines 84-88):
buf_index (u16), __pad2 ([u64; 3]). -/
def io_uring_sqe_idx_members : List (Nat × Nat) := [(2, 2), (8, 24)]

/-- Fields of struct io_uring_sqe (io_uring.rs lines 90-102), in order:
opcode (u8), flags (u8), ioprio (u16), fd (i32), off (u64), addr (u64),
len (u32), arg (union), user_data (u64), idx (union). -/
def io_uring_sqe_fields : List (Nat × Nat) :=
  [(1, 1), (1, 1), (2, 2), (4, 4), (8, 8), (8, 8), (4, 4),
   unionField io_uring_sqe_arg_members, (8, 8),
   unionField io_uring_sqe_idx_members]

/-- sizeof io_uring_sqe: the value mem::size_of returns for the struct. -/
def io_uring_sqe_size : Nat := reprCSize io_uring_sqe_fields

/-- Fields of struct io_uring_cqe (io_uring.rs lines 104-109), in order:
user_data (u64), res (i32), flags (u32). -/
def io_uring_cqe_fields : List (Nat × Nat) := [(8, 8), (4, 4), (4, 4)]

/-- sizeof io_uring_cqe: the value mem::size_of returns for the struct. -/
def io_uring_cqe_size : Nat := reprCSize io_uring_cqe_fields

/-- The kernel's io_uring_cqe layout for one x86-64 completion entry:
user_data at byte 0 (8 bytes), res at byte 8 (4 bytes, signed),
flags at byte 12 (4 bytes); 16 bytes total. -/
def kernel_cqe_size : Nat := 16

/-- Pointee size of the CQ descriptor's cqes pointer. The source declares
the field as a pointer to io_uring_sqe (io_uring.rs line 61) and builds it
with a cast to that same pointer type (line 322), so address arithmetic
through this pointer steps by sizeof io_uring_sqe. -/
def cq_cqes_elem_size : Nat := io_uring_sqe_size

/-- Byte offset, from the CQ entry-array base, of the slot-i record as
addressed through the CQ descriptor's cqes pointer. -/
def cq_entry_byte_offset (i : Nat) : Nat := i * cq_cqes_elem_size

/-- struct io_sqring_offsets (io_uring.rs lines 112-123), reserved fields
omitted from the model (never read). -/
structure io_sqring_offsets where
  head : Nat
  tail : Nat
  ring_mask : Nat
  ring_entries : Nat
  flags : Nat
  dropped : Nat
  array : Nat
deriving DecidableEq

/-- struct io_cqring_offsets (io_uring.rs lines 125-134), reserved fields
omitted from the model (never read). -/
structure io_cqring_offsets where
  head : Nat
  tail : Nat
  ring_mask : Nat
  ring_entries : Nat
  overflow : Nat
  cqes : Nat
deriving DecidableEq

/-- struct io_uring_params (io_uring.rs lines 137-147), kernel-filled;
thread hints and reserved words omitted (never read by this layer). -/
structure io_uring_params where
  sq_entries : Nat
  cq_entries : Nat
  flags : Nat
  sq_off : io_sqring_offsets
  cq_off : io_cqring_offsets
deriving DecidableEq

/-- Submission-queue descriptor SQ (io_uring.rs lines 36-51); the raw
pointers are modelled as Nat addresses. -/
structure SQ where
  khead : Nat
  ktail : Nat
  kring_mask : Nat
  kring_entries : Nat
  kflags : Nat
  kdropped : Nat
  array : Nat
  sqes : Nat
  sqe_head : Nat
  sqe_tail : Nat
  ring_sz : Nat
  ring_ptr : Nat
deriving DecidableEq

/-- Completion-queue descriptor CQ (io_uring.rs lines 54-65). -/
structure CQ where
  khead : Nat
  ktail : Nat
  kring_mask : Nat
  kring_entries : Nat
  overflow : Nat
  cqes : Nat
  ring_sz : Nat
  ring_ptr : Nat
deriving DecidableEq

/-- std::mem::zeroed SQ, as produced in IoUring::init (line 206). -/
def zeroSQ : SQ := ⟨0, 0, 0, 0, 0, 0, 0, 0, 0, 0, 0, 0⟩

/-- std::mem::zeroed CQ, as produced in IoUring::init (line 207). -/
def zeroCQ : CQ := ⟨0, 0, 0, 0, 0, 0, 0, 0⟩

/-- The ring handle IoUring (io_uring.rs lines 68-72). -/
structure IoUring where
  fd : Int
  sq : SQ
  cq : CQ
deriving DecidableEq

/-- Record of the operating-system side effects a run performs: the mmap
requests issued (in order), the munmap calls (address, length) performed
(in order), and the file descriptors closed. -/
structure Effects where
  mmapCalls : List MmapCall
  munmaps : List (Nat × Nat)
  closedFds : List Int
deriving DecidableEq

/-- Kernel oracle: the raw c_long value returned by the setup syscall, the
parameters block the kernel filled, the outcome of each mmap request
(none models MAP_FAILED), and the u32 contents of mapped memory. -/
structure Env where
  setupRet : Int
  params : io_uring_params
  mmapRes : MmapCall → Option Nat
  mem : Nat → Nat

/-- Pointer-offset convenience closure (io_uring.rs lines 222-226):
base address plus byte offset. -/
def ptr_off (p : Nat) (off : Nat) : Nat := p + off

/-- Submission-queue ring region size (io_uring.rs lines 235-239):
sq_off.array + sq_entries * size_of u32. -/
def sq_ring_sz (p : io_uring_params) : Nat := p.sq_off.array + p.sq_entries * 4

/-- Submission-entry array size (io_uring.rs lines 250-254):
sq_entries * size_of io_uring_sqe. -/
def sqes_size (p : io_uring_params) : Nat := p.sq_entries * io_uring_sqe_size

/-- Completion-queue ring region size (io_uring.rs lines 295-299):
cq_off.cqes + cq_entries * size_of io_uring_cqe. -/
def cq_ring_sz (p : io_uring_params) : Nat :=
  p.cq_off.cqes + p.cq_entries * io_uring_cqe_size

/-- Outcome of queue_mmap: Ok with the final SQ and CQ, Err (with the SQ
and CQ fields as mutated so far; init returns the handle in this state),
or a panic raised by assert_eq. Each carries the side effects performed. -/
inductive QmapResult where
  | ok : SQ → CQ → Effects → QmapResult
  | err : SQ → CQ → Effects → QmapResult
  | panicked : SQ → CQ → Effects → QmapResult
deriving DecidableEq

/-- Side effects of a queue_mmap outcome. -/
def QmapResult.effects : QmapResult → Effects
  | .ok _ _ e => e
  | .err _ _ e => e
  | .panicked _ _ e => e

/-- True when the outcome is a returned Err value. -/
def QmapResult.isErr : QmapResult → Bool
  | .err _ _ _ => true
  | _ => false

/-- True when the outcome is a panic raised by assert_eq. -/
def QmapResult.isPanicked : QmapResult → Bool
  | .panicked _ _ _ => true
  | _ => false

/-- IoUring::queue_mmap (io_uring.rs lines 219-329). Maps the
submission-queue region at IORING_OFF_SQ_RING, the submission-entry array
at IORING_OFF_SQES (unmapping the first region if this fails), fills the
SQ descriptor from the sq_off table with both cursors zero, asserts that
p.sq_entries equals the u32 read through the freshly resolved
kring_entries pointer, maps the completion-queue region at
IORING_OFF_CQ_RING (unmapping both earlier regions if this fails), and
fills the CQ descriptor from the cq_off table. -/
def queue_mmap (env : Env) (fd : Int) : QmapResult :=
  let p := env.params
  match env.mmapRes (mmap (sq_ring_sz p) fd IORING_OFF_SQ_RING) with
  | none =>
      .err zeroSQ zeroCQ
        ⟨[mmap (sq_ring_sz p) fd IORING_OFF_SQ_RING], [], []⟩
  | some sq_ring_ptr =>
      match env.mmapRes (mmap (sqes_size p) fd IORING_OFF_SQES) with
      | none =>
          .err zeroSQ zeroCQ
            ⟨[mmap (sq_ring_sz p) fd IORING_OFF_SQ_RING,
              mmap (sqes_size p) fd IORING_OFF_SQES],
             [(sq_ring_ptr, sq_ring_sz p)], []⟩
      | some sqes_ptr =>
          let sq : SQ :=
            { khead := ptr_off sq_ring_ptr p.sq_off.head
              ktail := ptr_off sq_ring_ptr p.sq_off.tail
              kring_mask := ptr_off sq_ring_ptr p.sq_off.ring_mask
              kring_entries := ptr_off sq_ring_ptr p.sq_off.ring_entries
              kflags := ptr_off sq_ring_ptr p.sq_off.flags
              kdropped := ptr_off sq_ring_ptr p.sq_off.dropped
              array := ptr_off sq_ring_ptr p.sq_off.array
              sqes := sqes_ptr
              sqe_head := 0
              sqe_tail := 0
              ring_sz := sq_ring_sz p
              ring_ptr := sq_ring_ptr }
          if p.sq_entries = env.mem sq.kring_entries then
            match env.mmapRes (mmap (cq_ring_sz p) fd IORING_OFF_CQ_RING) with
            | none =>
                .err sq zeroCQ
                  ⟨[mmap (sq_ring_sz p) fd IORING_OFF_SQ_RING,
                    mmap (sqes_size p) fd IORING_OFF_SQES,
                    mmap (cq_ring_sz p) fd IORING_OFF_CQ_RING],
                   [(sq_ring_ptr, sq_ring_sz p), (sqes_ptr, sqes_size p)], []⟩
            | some cq_ring_ptr =>
                let cq : CQ :=
                  { khead := ptr_off cq_ring_ptr p.cq_off.head
                    ktail := ptr_off cq_ring_ptr p.cq_off.tail
                    kring_mask := ptr_off cq_ring_ptr p.cq_off.ring_mask
                    kring_entries := ptr_off cq_ring_ptr p.cq_off.ring_entries
                    overflow := ptr_off cq_ring_ptr p.cq_off.overflow
                    cqes := ptr_off cq_ring_ptr p.cq_off.cqes
                    ring_sz := cq_ring_sz p
                    ring_ptr := cq_ring_ptr }
                .ok sq cq
                  ⟨[mmap (sq_ring_sz p) fd IORING_OFF_SQ_RING,
                    mmap (sqes_size p) fd IORING_OFF_SQES,
                    mmap (cq_ring_sz p) fd IORING_OFF_CQ_RING],
                   [], []⟩
          else
            .panicked sq zeroCQ
              ⟨[mmap (sq_ring_sz p) fd IORING_OFF_SQ_RING,
                mmap (sqes_size p) fd IORING_OFF_SQES],
               [], []⟩

/-- Smallest value of libc c_int (i32). -/
def c_int_min : Int := -(2 ^ 31)

/-- Largest value of libc c_int (i32). -/
def c_int_max : Int := 2 ^ 31 - 1

/-- io_uring_setup wrapper (io_uring.rs lines 158-162): the raw c_long
syscall return is narrowed with c_int try_from; unwrap_or(-1) yields -1
when the value does not fit in a c_int. -/
def io_uring_setup (ret : Int) : Int :=
  if c_int_min ≤ ret ∧ ret ≤ c_int_max then ret else -1

/-- Outcome of IoUring::init: Ok with a handle, Err, or a propagated
panic; each carries the side effects performed. -/
inductive InitResult where
  | ok : IoUring → Effects → InitResult
  | err : Effects → InitResult
  | panicked : SQ → CQ → Effects → InitResult
deriving DecidableEq

/-- IoUring::init (io_uring.rs lines 195-215). Runs io_uring_setup; a
negative fd is returned as Err. Otherwise builds the handle with zeroed
queues, runs queue_mmap, closes the fd when queue_mmap returned Err —
and then returns Ok(ret) unconditionally (line 214), Err or not. A panic
from the assert in queue_mmap propagates, skipping the close. -/
def init (env : Env) (nentries : Nat) : InitResult :=
  let _ := nentries
  let fd := io_uring_setup env.setupRet
  if fd < 0 then .err ⟨[], [], []⟩
  else
    match queue_mmap env fd with
    | .ok sq cq eff => .ok ⟨fd, sq, cq⟩ eff
    | .err sq cq eff =>
        .ok ⟨fd, sq, cq⟩ { eff with closedFds := eff.closedFds ++ [fd] }
    | .panicked sq cq eff => .panicked sq cq eff

/-- NSIG_ constant of the enter gateway (io_uring.rs line 188). -/
def NSIG_u : Nat := 65

/-- sigset_size as computed by io_uring_enter (io_uring.rs line 189):
NSIG_ / 8 in c_uint arithmetic, i.e. truncating division. -/
def sigset_size_val : Nat := NSIG_u / 8

/-- Argument tuple the enter gateway passes to the syscall. -/
structure EnterCall where
  fd : Int
  to_submit : Nat
  min_complete : Nat
  flags : Nat
  sigset : Nat
  sigset_size : Nat
deriving DecidableEq

/-- io_uring_enter wrapper (io_uring.rs lines 164-191): forwards its
arguments and appends the computed kernel sigset size. -/
def io_uring_enter (fd : Int) (to_submit min_complete flags sigset : Nat) :
    EnterCall :=
  ⟨fd, to_submit, min_complete, flags, sigset, sigset_size_val⟩

/-- Example kernel-filled parameters block used by concrete witnesses:
depth 4 submission queue, depth 8 completion queue, plausible offsets. -/
def pExample : io_uring_params :=
  { sq_entries := 4
    cq_entries := 8
    flags := 0
    sq_off := { head := 0, tail := 4, ring_mask := 8, ring_entries := 12,
                flags := 16, dropped := 20, array := 128 }
    cq_off := { head := 0, tail := 4, ring_mask := 8, ring_entries := 12,
                overflow := 16, cqes := 64 } }

/-- Environment in which setup succeeds with fd 3 and every mmap fails. -/
def envAllMmapFail : Env :=
  { setupRet := 3
    params := pExample
    mmapRes := fun _ => none
    mem := fun _ => 0 }

/-- Environment in which the submission-queue ring mapping succeeds at
address 4096 and every later mapping fails. -/
def envSqesFail : Env :=
  { setupRet := 3
    params := pExample
    mmapRes := fun c => if c.off = IORING_OFF_SQ_RING then some 4096 else none
    mem := fun a => if a = 4096 + 12 then 4 else 0 }

/-- Environment in which the first two mappings succeed (addresses 4096
and 8192), memory is geometry-consistent, and the completion-queue
mapping fails. -/
def envCqFail : Env :=
  { setupRet := 3
    params := pExample
    mmapRes := fun c =>
      if c.off = IORING_OFF_SQ_RING then some 4096
      else if c.off = IORING_OFF_SQES then some 8192
      else none
    mem := fun a => if a = 4096 + 12 then 4 else 0 }

/-- Environment in which all three mappings succeed (addresses 4096, 8192,
12288) and memory is geometry-consistent. -/
def envAllOk : Env :=
  { setupRet := 3
    params := pExample
    mmapRes := fun c =>
      if c.off = IORING_OFF_SQ_RING then some 4096
      else if c.off = IORING_OFF_SQES then some 8192
      else some 12288
    mem := fun a => if a = 4096 + 12 then 4 else 0 }

/-- Environment in which the first two mappings succeed but the mapped
ring-entry-count word disagrees with sq_entries (assert fires). -/
def envBadGeom : Env :=
  { setupRet := 3
    params := pExample
    mmapRes := fun c =>
      if c.off = IORING_OFF_SQ_RING then some 4096
      else if c.off = IORING_OFF_SQES then some 8192
      else some 12288
    mem := fun _ => 999 }

/-- Environment whose raw setup return does not fit in a c_int. -/
def envSetupHuge : Env :=
  { setupRet := 2 ^ 40
    params := pExample
    mmapRes := fun _ => none
    mem := fun _ => 0 }

/-- Every run of queue_mmap issues a prefix of the three mmap requests, in
order: submission-queue ring, submission-entry array, completion-queue
ring. -/
theorem queue_mmap_mmapCalls (env : Env) (fd : Int) :
    (queue_mmap env fd).effects.mmapCalls =
      [mmap (sq_ring_sz env.params) fd IORING_OFF_SQ_RING] ∨
    (queue_mmap env fd).effects.mmapCalls =
      [mmap (sq_ring_sz env.params) fd IORING_OFF_SQ_RING,
       mmap (sqes_size env.params) fd IORING_OFF_SQES] ∨
    (queue_mmap env fd).effects.mmapCalls =
      [mmap (sq_ring_sz env.params) fd IORING_OFF_SQ_RING,
       mmap (sqes_size env.params) fd IORING_OFF_SQES,
       mmap (cq_ring_sz env.params) fd IORING_OFF_CQ_RING] := by
  cases h1 : env.mmapRes (mmap (sq_ring_sz env.params) fd IORING_OFF_SQ_RING) with
  | none => left; simp [queue_mmap, h1, QmapResult.effects]
  | some a =>
    cases h2 : env.mmapRes (mmap (sqes_size env.params) fd IORING_OFF_SQES) with
    | none => right; left; simp [queue_mmap, h1, h2, QmapResult.effects]
    | some b =>
      by_cases hg : env.params.sq_entries =
          env.mem (ptr_off a env.params.sq_off.ring_entries)
      · cases h3 : env.mmapRes (mmap (cq_ring_sz env.params) fd IORING_OFF_CQ_RING) with
        | none =>
            right; right; simp [queue_mmap, h1, h2, h3, ← hg, QmapResult.effects]
        | some c =>
            right; right; simp [queue_mmap, h1, h2, h3, ← hg, QmapResult.effects]
      · right; left; simp [queue_mmap, h1, h2, hg, QmapResult.effects]

/-- Field values of one mmap request: the helper always uses a null hint,
read-write protection and shared pre-populated flags, and forwards length,
descriptor and offset. -/
theorem mmap_request_fields (len : Nat) (fd : Int) (off : Int) :
    (mmap len fd off).prot = Nat.lor PROT_READ PROT_WRITE ∧
    (mmap len fd off).flags = Nat.lor MAP_SHARED MAP_POPULATE ∧
    (mmap len fd off).fd = fd ∧ (mmap len fd off).addr = 0 ∧
    (mmap len fd off).len = len ∧ (mmap len fd off).off = off := by
  simp [mmap]

/-- C1: refuted on the code. In an environment where the setup syscall
succeeds with fd 3 and the submission-queue mapping then fails, queue_mmap
returns Err, init closes fd 3 — and nonetheless returns a success value
holding the partially-constructed handle (closed descriptor, zeroed
queues), instead of propagating the error. -/
theorem C1_init_ok_despite_mmap_failure :
    (queue_mmap envAllMmapFail 3).isErr = true ∧
    init envAllMmapFail 4 =
      .ok ⟨3, zeroSQ, zeroCQ⟩
        ⟨[mmap (sq_ring_sz pExample) 3 IORING_OFF_SQ_RING], [], [3]⟩ := by
  decide

/-- C2: if the submission-entry-array mapping fails, queue_mmap unmaps the
already-mapped submission-queue region (address a, its full size) and
returns an error; if the completion-queue mapping fails, it unmaps both
the submission-queue region and the entry array, in that order, and
returns an error. -/
theorem C2_rollback_on_mapping_failure (env : Env) (fd : Int) (a : Nat)
    (h1 : env.mmapRes (mmap (sq_ring_sz env.params) fd IORING_OFF_SQ_RING) = some a) :
    (env.mmapRes (mmap (sqes_size env.params) fd IORING_OFF_SQES) = none →
      (queue_mmap env fd).isErr = true ∧
      (queue_mmap env fd).effects.munmaps = [(a, sq_ring_sz env.params)]) ∧
    (∀ b, env.mmapRes (mmap (sqes_size env.params) fd IORING_OFF_SQES) = some b →
      env.params.sq_entries = env.mem (a + env.params.sq_off.ring_entries) →
      env.mmapRes (mmap (cq_ring_sz env.params) fd IORING_OFF_CQ_RING) = none →
      (queue_mmap env fd).isErr = true ∧
      (queue_mmap env fd).effects.munmaps =
        [(a, sq_ring_sz env.params), (b, sqes_size env.params)]) := by
  constructor
  · intro h2
    constructor <;>
      simp [queue_mmap, h1, h2, QmapResult.effects, QmapResult.isErr]
  · intro b h2 hg h3
    constructor <;>
      simp [queue_mmap, h1, h2, h3, ptr_off, ← hg, QmapResult.effects,
        QmapResult.isErr]

/-- C2 witness: in envSqesFail the submission-queue ring maps at 4096 and
the entry-array mapping fails; applying the theorem there shows the error
return with exactly the submission-queue region unmapped. -/
theorem C2_rollback_witness :
    (envSqesFail.mmapRes
        (mmap (sq_ring_sz envSqesFail.params) 3 IORING_OFF_SQ_RING) = some 4096) ∧
    ((envSqesFail.mmapRes
        (mmap (sqes_size envSqesFail.params) 3 IORING_OFF_SQES) = none →
      (queue_mmap envSqesFail 3).isErr = true ∧
      (queue_mmap envSqesFail 3).effects.munmaps =
        [(4096, sq_ring_sz envSqesFail.params)]) ∧
    (∀ b, envSqesFail.mmapRes
        (mmap (sqes_size envSqesFail.params) 3 IORING_OFF_SQES) = some b →
      envSqesFail.params.sq_entries =
        envSqesFail.mem (4096 + envSqesFail.params.sq_off.ring_entries) →
      envSqesFail.mmapRes
        (mmap (cq_ring_sz envSqesFail.params) 3 IORING_OFF_CQ_RING) = none →
      (queue_mmap envSqesFail 3).isErr = true ∧
      (queue_mmap envSqesFail 3).effects.munmaps =
        [(4096, sq_ring_sz envSqesFail.params),
         (b, sqes_size envSqesFail.params)])) :=
  ⟨rfl, C2_rollback_on_mapping_failure envSqesFail 3 4096 rfl⟩

/-- C3: once the first two mappings have succeeded, queue_mmap actively
compares sq_entries from the parameters block with the u32 read through
the freshly resolved ring-entry-count pointer: a mismatch ends the run in
the assert's panic (a fatal construction outcome), and whenever the
kernel-reported geometry is self-consistent the failure branch is
unreachable — the run never panics. -/
theorem C3_geometry_checked_not_assumed (env : Env) (fd : Int) (a b : Nat)
    (h1 : env.mmapRes (mmap (sq_ring_sz env.params) fd IORING_OFF_SQ_RING) = some a)
    (h2 : env.mmapRes (mmap (sqes_size env.params) fd IORING_OFF_SQES) = some b) :
    (env.params.sq_entries ≠ env.mem (a + env.params.sq_off.ring_entries) →
      (queue_mmap env fd).isPanicked = true) ∧
    (env.params.sq_entries = env.mem (a + env.params.sq_off.ring_entries) →
      (queue_mmap env fd).isPanicked = false) := by
  constructor
  · intro hne
    simp [queue_mmap, h1, h2, ptr_off, hne, QmapResult.isPanicked]
  · intro hg
    cases h3 : env.mmapRes (mmap (cq_ring_sz env.params) fd IORING_OFF_CQ_RING) with
    | none => simp [queue_mmap, h1, h2, h3, ptr_off, ← hg, QmapResult.isPanicked]
    | some c => simp [queue_mmap, h1, h2, h3, ptr_off, ← hg, QmapResult.isPanicked]

/-- C3 witness: in envBadGeom the mapped ring-entry-count word reads 999
while sq_entries is 4, so the mismatch branch fires and the run panics;
the theorem applied there confirms both directions at a concrete input. -/
theorem C3_geometry_witness :
    (envBadGeom.mmapRes
        (mmap (sq_ring_sz envBadGeom.params) 3 IORING_OFF_SQ_RING) = some 4096) ∧
    (envBadGeom.params.sq_entries ≠
        envBadGeom.mem (4096 + envBadGeom.params.sq_off.ring_entries)) ∧
    (queue_mmap envBadGeom 3).isPanicked = true :=
  ⟨rfl, by decide,
    (C3_geometry_checked_not_assumed envBadGeom 3 4096 8192 rfl rfl).1 (by decide)⟩

/-- C4: refuted on the code. The io_uring_cqe struct itself is the
kernel's 16-byte layout (user_data at 0, res at 8, flags at 12), but the
CQ descriptor's entry-array base pointer is declared and built as a
pointer to io_uring_sqe, whose repr(C) size is 64, so the slot-1 record
addressed through that pointer lies at byte offset 64, not 16. -/
theorem C4_cq_entry_stride_mismatch :
    io_uring_cqe_size = 16 ∧
    reprCOffset io_uring_cqe_fields 0 = 0 ∧
    reprCOffset io_uring_cqe_fields 1 = 8 ∧
    reprCOffset io_uring_cqe_fields 2 = 12 ∧
    io_uring_cqe_size = kernel_cqe_size ∧
    cq_cqes_elem_size = 64 ∧
    cq_entry_byte_offset 1 = 64 ∧
    cq_entry_byte_offset 1 ≠ 1 * kernel_cqe_size := by
  decide

/-- C5: every submission-queue-ring mmap request queue_mmap issues has
length sq_off.array + sq_entries * 4, and every completion-queue-ring
request has length cq_off.cqes + cq_entries * sizeof io_uring_cqe. -/
theorem C5_region_sizes_from_offsets (env : Env) (fd : Int) :
    ∀ c ∈ (queue_mmap env fd).effects.mmapCalls,
      (c.off = IORING_OFF_SQ_RING →
        c.len = env.params.sq_off.array + env.params.sq_entries * 4) ∧
      (c.off = IORING_OFF_CQ_RING →
        c.len = env.params.cq_off.cqes +
          env.params.cq_entries * io_uring_cqe_size) := by
  have sq_case : ∀ c, c = mmap (sq_ring_sz env.params) fd IORING_OFF_SQ_RING →
      (c.off = IORING_OFF_SQ_RING →
        c.len = env.params.sq_off.array + env.params.sq_entries * 4) ∧
      (c.off = IORING_OFF_CQ_RING →
        c.len = env.params.cq_off.cqes +
          env.params.cq_entries * io_uring_cqe_size) := by
    rintro c rfl
    obtain ⟨-, -, -, -, hl, ho⟩ :=
      mmap_request_fields (sq_ring_sz env.params) fd IORING_OFF_SQ_RING
    exact ⟨fun _ => hl, fun hoff =>
      absurd (ho.symm.trans hoff) (by decide)⟩
  have sqes_case : ∀ c, c = mmap (sqes_size env.params) fd IORING_OFF_SQES →
      (c.off = IORING_OFF_SQ_RING →
        c.len = env.params.sq_off.array + env.params.sq_entries * 4) ∧
      (c.off = IORING_OFF_CQ_RING →
        c.len = env.params.cq_off.cqes +
          env.params.cq_entries * io_uring_cqe_size) := by
    rintro c rfl
    obtain ⟨-, -, -, -, -, ho⟩ :=
      mmap_request_fields (sqes_size env.params) fd IORING_OFF_SQES
    exact ⟨fun hoff => absurd (ho.symm.trans hoff) (by decide),
      fun hoff => absurd (ho.symm.trans hoff) (by decide)⟩
  have cq_case : ∀ c, c = mmap (cq_ring_sz env.params) fd IORING_OFF_CQ_RING →
      (c.off = IORING_OFF_SQ_RING →
        c.len = env.params.sq_off.array + env.params.sq_entries * 4) ∧
      (c.off = IORING_OFF_CQ_RING →
        c.len = env.params.cq_off.cqes +
          env.params.cq_entries * io_uring_cqe_size) := by
    rintro c rfl
    obtain ⟨-, -, -, -, hl, ho⟩ :=
      mmap_request_fields (cq_ring_sz env.params) fd IORING_OFF_CQ_RING
    exact ⟨fun hoff => absurd (ho.symm.trans hoff) (by decide), fun _ => hl⟩
  intro c hc
  rcases queue_mmap_mmapCalls env fd with h | h | h <;> rw [h] at hc <;>
    simp only [List.mem_cons, List.mem_singleton, List.not_mem_nil,
      or_false] at hc
  · exact sq_case c hc
  · rcases hc with hc | hc
    · exact sq_case c hc
    · exact sqes_case c hc
  · rcases hc with hc | hc | hc
    · exact sq_case c hc
    · exact sqes_case c hc
    · exact cq_case c hc

/-- C5 witness: in envAllOk all three requests are issued; applying the
theorem to the submission-queue-ring request (a member of the recorded
call list) yields its size equation concretely. -/
theorem C5_region_sizes_witness :
    (mmap (sq_ring_sz envAllOk.params) 3 IORING_OFF_SQ_RING) ∈
      (queue_mmap envAllOk 3).effects.mmapCalls ∧
    (((mmap (sq_ring_sz envAllOk.params) 3 IORING_OFF_SQ_RING).off =
        IORING_OFF_SQ_RING →
      (mmap (sq_ring_sz envAllOk.params) 3 IORING_OFF_SQ_RING).len =
        envAllOk.params.sq_off.array + envAllOk.params.sq_entries * 4) ∧
    ((mmap (sq_ring_sz envAllOk.params) 3 IORING_OFF_SQ_RING).off =
        IORING_OFF_CQ_RING →
      (mmap (sq_ring_sz envAllOk.params) 3 IORING_OFF_SQ_RING).len =
        envAllOk.params.cq_off.cqes +
          envAllOk.params.cq_entries * io_uring_cqe_size)) :=
  ⟨by decide, C5_region_sizes_from_offsets envAllOk 3
    (mmap (sq_ring_sz envAllOk.params) 3 IORING_OFF_SQ_RING) (by decide)⟩

/-- C6: the three mmap file offsets are pairwise distinct with the
submission-queue ring at offset 0, and every mmap request queue_mmap
issues is a shared, pre-populated, read-write mapping (null address hint)
against the ring fd at one of the three reserved offsets, with the length
computed from the kernel-reported parameters for that offset. -/
theorem C6_mapping_discipline (env : Env) (fd : Int) :
    (IORING_OFF_SQ_RING = 0 ∧ IORING_OFF_SQ_RING ≠ IORING_OFF_CQ_RING ∧
     IORING_OFF_SQ_RING ≠ IORING_OFF_SQES ∧
     IORING_OFF_CQ_RING ≠ IORING_OFF_SQES) ∧
    ∀ c ∈ (queue_mmap env fd).effects.mmapCalls,
      c.prot = Nat.lor PROT_READ PROT_WRITE ∧
      c.flags = Nat.lor MAP_SHARED MAP_POPULATE ∧
      c.fd = fd ∧ c.addr = 0 ∧
      ((c.off = IORING_OFF_SQ_RING ∧ c.len = sq_ring_sz env.params) ∨
       (c.off = IORING_OFF_SQES ∧ c.len = sqes_size env.params) ∨
       (c.off = IORING_OFF_CQ_RING ∧ c.len = cq_ring_sz env.params)) := by
  refine ⟨by decide, ?_⟩
  have sq_case : ∀ c, c = mmap (sq_ring_sz env.params) fd IORING_OFF_SQ_RING →
      c.prot = Nat.lor PROT_READ PROT_WRITE ∧
      c.flags = Nat.lor MAP_SHARED MAP_POPULATE ∧
      c.fd = fd ∧ c.addr = 0 ∧
      ((c.off = IORING_OFF_SQ_RING ∧ c.len = sq_ring_sz env.params) ∨
       (c.off = IORING_OFF_SQES ∧ c.len = sqes_size env.params) ∨
       (c.off = IORING_OFF_CQ_RING ∧ c.len = cq_ring_sz env.params)) := by
    rintro c rfl
    obtain ⟨hp, hf, hd, ha, hl, ho⟩ :=
      mmap_request_fields (sq_ring_sz env.params) fd IORING_OFF_SQ_RING
    exact ⟨hp, hf, hd, ha, Or.inl ⟨ho, hl⟩⟩
  have sqes_case : ∀ c, c = mmap (sqes_size env.params) fd IORING_OFF_SQES →
      c.prot = Nat.lor PROT_READ PROT_WRITE ∧
      c.flags = Nat.lor MAP_SHARED MAP_POPULATE ∧
      c.fd = fd ∧ c.addr = 0 ∧
      ((c.off = IORING_OFF_SQ_RING ∧ c.len = sq_ring_sz env.params) ∨
       (c.off = IORING_OFF_SQES ∧ c.len = sqes_size env.params) ∨
       (c.off = IORING_OFF_CQ_RING ∧ c.len = cq_ring_sz env.params)) := by
    rintro c rfl
    obtain ⟨hp, hf, hd, ha, hl, ho⟩ :=
      mmap_request_fields (sqes_size env.params) fd IORING_OFF_SQES
    exact ⟨hp, hf, hd, ha, Or.inr (Or.inl ⟨ho, hl⟩)⟩
  have cq_case : ∀ c, c = mmap (cq_ring_sz env.params) fd IORING_OFF_CQ_RING →
      c.prot = Nat.lor PROT_READ PROT_WRITE ∧
      c.flags = Nat.lor MAP_SHARED MAP_POPULATE ∧
      c.fd = fd ∧ c.addr = 0 ∧
      ((c.off = IORING_OFF_SQ_RING ∧ c.len = sq_ring_sz env.params) ∨
       (c.off = IORING_OFF_SQES ∧ c.len = sqes_size env.params) ∨
       (c.off = IORING_OFF_CQ_RING ∧ c.len = cq_ring_sz env.params)) := by
    rintro c rfl
    obtain ⟨hp, hf, hd, ha, hl, ho⟩ :=
      mmap_request_fields (cq_ring_sz env.params) fd IORING_OFF_CQ_RING
    exact ⟨hp, hf, hd, ha, Or.inr (Or.inr ⟨ho, hl⟩)⟩
  intro c hc
  rcases queue_mmap_mmapCalls env fd with h | h | h <;> rw [h] at hc <;>
    simp only [List.mem_cons, List.mem_singleton, List.not_mem_nil,
      or_false] at hc
  · exact sq_case c hc
  · rcases hc with hc | hc
    · exact sq_case c hc
    · exact sqes_case c hc
  · rcases hc with hc | hc | hc
    · exact sq_case c hc
    · exact sqes_case c hc
    · exact cq_case c hc

/-- C6 witness: applying the theorem in envAllOk to the completion-queue
request, a member of the recorded call list, yields the full mapping
discipline at a concrete input. -/
theorem C6_mapping_witness :
    (mmap (cq_ring_sz envAllOk.params) 3 IORING_OFF_CQ_RING) ∈
      (queue_mmap envAllOk 3).effects.mmapCalls ∧
    ((mmap (cq_ring_sz envAllOk.params) 3 IORING_OFF_CQ_RING).prot =
        Nat.lor PROT_READ PROT_WRITE ∧
     (mmap (cq_ring_sz envAllOk.params) 3 IORING_OFF_CQ_RING).flags =
        Nat.lor MAP_SHARED MAP_POPULATE ∧
     (mmap (cq_ring_sz envAllOk.params) 3 IORING_OFF_CQ_RING).fd = 3 ∧
     (mmap (cq_ring_sz envAllOk.params) 3 IORING_OFF_CQ_RING).addr = 0 ∧
     (((mmap (cq_ring_sz envAllOk.params) 3 IORING_OFF_CQ_RING).off =
          IORING_OFF_SQ_RING ∧
       (mmap (cq_ring_sz envAllOk.params) 3 IORING_OFF_CQ_RING).len =
          sq_ring_sz envAllOk.params) ∨
      ((mmap (cq_ring_sz envAllOk.params) 3 IORING_OFF_CQ_RING).off =
          IORING_OFF_SQES ∧
       (mmap (cq_ring_sz envAllOk.params) 3 IORING_OFF_CQ_RING).len =
          sqes_size envAllOk.params) ∨
      ((mmap (cq_ring_sz envAllOk.params) 3 IORING_OFF_CQ_RING).off =
          IORING_OFF_CQ_RING ∧
       (mmap (cq_ring_sz envAllOk.params) 3 IORING_OFF_CQ_RING).len =
          cq_ring_sz envAllOk.params))) :=
  ⟨by decide, (C6_mapping_discipline envAllOk 3).2
    (mmap (cq_ring_sz envAllOk.params) 3 IORING_OFF_CQ_RING) (by decide)⟩

/-- C7: for every argument tuple, the enter gateway passes the kernel
sigset width — its computed sigset-size expression evaluates to exactly
8 bytes, equal to 64 signal bits divided by 8. -/
theorem C7_enter_sigset_size (fd : Int)
    (to_submit min_complete flags sigset : Nat) :
    (io_uring_enter fd to_submit min_complete flags sigset).sigset_size = 8 ∧
    (io_uring_enter fd to_submit min_complete flags sigset).sigset_size =
      64 / 8 := by
  exact ⟨rfl, rfl⟩

/-- C8: on the success path, queue_mmap resolves each submission-queue
field pointer as the submission-queue mapping base a plus the
corresponding sq_off byte offset, takes the entry-array base b as the
entries mapping, stores both process-local cursors as zero, and resolves
the completion-queue fields from base c analogously. -/
theorem C8_sq_pointer_resolution (env : Env) (fd : Int) (a b c : Nat)
    (h1 : env.mmapRes (mmap (sq_ring_sz env.params) fd IORING_OFF_SQ_RING) = some a)
    (h2 : env.mmapRes (mmap (sqes_size env.params) fd IORING_OFF_SQES) = some b)
    (hg : env.params.sq_entries = env.mem (a + env.params.sq_off.ring_entries))
    (h3 : env.mmapRes (mmap (cq_ring_sz env.params) fd IORING_OFF_CQ_RING) = some c) :
    queue_mmap env fd = .ok
      { khead := a + env.params.sq_off.head
        ktail := a + env.params.sq_off.tail
        kring_mask := a + env.params.sq_off.ring_mask
        kring_entries := a + env.params.sq_off.ring_entries
        kflags := a + env.params.sq_off.flags
        kdropped := a + env.params.sq_off.dropped
        array := a + env.params.sq_off.array
        sqes := b
        sqe_head := 0
        sqe_tail := 0
        ring_sz := sq_ring_sz env.params
        ring_ptr := a }
      { khead := c + env.params.cq_off.head
        ktail := c + env.params.cq_off.tail
        kring_mask := c + env.params.cq_off.ring_mask
        kring_entries := c + env.params.cq_off.ring_entries
        overflow := c + env.params.cq_off.overflow
        cqes := c + env.params.cq_off.cqes
        ring_sz := cq_ring_sz env.params
        ring_ptr := c }
      ⟨[mmap (sq_ring_sz env.params) fd IORING_OFF_SQ_RING,
        mmap (sqes_size env.params) fd IORING_OFF_SQES,
        mmap (cq_ring_sz env.params) fd IORING_OFF_CQ_RING], [], []⟩ := by
  simp [queue_mmap, h1, h2, h3, ptr_off, ← hg]

/-- C8 witness: in envAllOk (mappings at 4096, 8192, 12288, consistent
geometry) the theorem yields the fully resolved descriptors concretely. -/
theorem C8_sq_pointer_witness :
    (envAllOk.params.sq_entries =
        envAllOk.mem (4096 + envAllOk.params.sq_off.ring_entries)) ∧
    queue_mmap envAllOk 3 = .ok
      { khead := 4096 + envAllOk.params.sq_off.head
        ktail := 4096 + envAllOk.params.sq_off.tail
        kring_mask := 4096 + envAllOk.params.sq_off.ring_mask
        kring_entries := 4096 + envAllOk.params.sq_off.ring_entries
        kflags := 4096 + envAllOk.params.sq_off.flags
        kdropped := 4096 + envAllOk.params.sq_off.dropped
        array := 4096 + envAllOk.params.sq_off.array
        sqes := 8192
        sqe_head := 0
        sqe_tail := 0
        ring_sz := sq_ring_sz envAllOk.params
        ring_ptr := 4096 }
      { khead := 12288 + envAllOk.params.cq_off.head
        ktail := 12288 + envAllOk.params.cq_off.tail
        kring_mask := 12288 + envAllOk.params.cq_off.ring_mask
        kring_entries := 12288 + envAllOk.params.cq_off.ring_entries
        overflow := 12288 + envAllOk.params.cq_off.overflow
        cqes := 12288 + envAllOk.params.cq_off.cqes
        ring_sz := cq_ring_sz envAllOk.params
        ring_ptr := 12288 }
      ⟨[mmap (sq_ring_sz envAllOk.params) 3 IORING_OFF_SQ_RING,
        mmap (sqes_size envAllOk.params) 3 IORING_OFF_SQES,
        mmap (cq_ring_sz envAllOk.params) 3 IORING_OFF_CQ_RING], [], []⟩ :=
  ⟨by decide,
    C8_sq_pointer_resolution envAllOk 3 4096 8192 12288 rfl rfl (by decide) rfl⟩

/-- C9: when the geometry assert fails, queue_mmap ends in a panic rather
than an error return, with no munmap and no close performed — and init,
run in the same environment with a non-negative representable setup
return, propagates the panic without closing the ring fd. -/
theorem C9_assert_panics_without_rollback (env : Env) (fd : Int) (a b : Nat)
    (h1 : env.mmapRes (mmap (sq_ring_sz env.params) fd IORING_OFF_SQ_RING) = some a)
    (h2 : env.mmapRes (mmap (sqes_size env.params) fd IORING_OFF_SQES) = some b)
    (hne : env.params.sq_entries ≠ env.mem (a + env.params.sq_off.ring_entries)) :
    queue_mmap env fd = .panicked
      { khead := a + env.params.sq_off.head
        ktail := a + env.params.sq_off.tail
        kring_mask := a + env.params.sq_off.ring_mask
        kring_entries := a + env.params.sq_off.ring_entries
        kflags := a + env.params.sq_off.flags
        kdropped := a + env.params.sq_off.dropped
        array := a + env.params.sq_off.array
        sqes := b
        sqe_head := 0
        sqe_tail := 0
        ring_sz := sq_ring_sz env.params
        ring_ptr := a }
      zeroCQ
      ⟨[mmap (sq_ring_sz env.params) fd IORING_OFF_SQ_RING,
        mmap (sqes_size env.params) fd IORING_OFF_SQES], [], []⟩ ∧
    (env.setupRet = fd → 0 ≤ fd → fd ≤ c_int_max → ∀ n : Nat,
      ∃ sq cq eff, init env n = .panicked sq cq eff ∧
        eff.munmaps = [] ∧ eff.closedFds = []) := by
  have key : queue_mmap env fd = .panicked
      { khead := a + env.params.sq_off.head
        ktail := a + env.params.sq_off.tail
        kring_mask := a + env.params.sq_off.ring_mask
        kring_entries := a + env.params.sq_off.ring_entries
        kflags := a + env.params.sq_off.flags
        kdropped := a + env.params.sq_off.dropped
        array := a + env.params.sq_off.array
        sqes := b
        sqe_head := 0
        sqe_tail := 0
        ring_sz := sq_ring_sz env.params
        ring_ptr := a }
      zeroCQ
      ⟨[mmap (sq_ring_sz env.params) fd IORING_OFF_SQ_RING,
        mmap (sqes_size env.params) fd IORING_OFF_SQES], [], []⟩ := by
    simp [queue_mmap, h1, h2, ptr_off, hne]
  refine ⟨key, ?_⟩
  intro hfd h0 hmax n
  have hmin : c_int_min ≤ fd := by
    have hc0 : c_int_min ≤ (0 : Int) := by norm_num [c_int_min]
    omega
  have hsetup : io_uring_setup env.setupRet = fd := by
    rw [hfd]
    exact if_pos ⟨hmin, hmax⟩
  refine ⟨{ khead := a + env.params.sq_off.head
            ktail := a + env.params.sq_off.tail
            kring_mask := a + env.params.sq_off.ring_mask
            kring_entries := a + env.params.sq_off.ring_entries
            kflags := a + env.params.sq_off.flags
            kdropped := a + env.params.sq_off.dropped
            array := a + env.params.sq_off.array
            sqes := b
            sqe_head := 0
            sqe_tail := 0
            ring_sz := sq_ring_sz env.params
            ring_ptr := a }, zeroCQ,
          ⟨[mmap (sq_ring_sz env.params) fd IORING_OFF_SQ_RING,
            mmap (sqes_size env.params) fd IORING_OFF_SQES], [], []⟩,
          ?_, rfl, rfl⟩
  simp only [init, hsetup, if_neg (by omega : ¬ fd < 0), key]

/-- C9 witness: in envBadGeom (mapped ring-entry word 999, sq_entries 4)
the run panics with empty munmap and close lists, and init with setup
return 3 propagates the panic without closing fd 3. -/
theorem C9_assert_panic_witness :
    (envBadGeom.params.sq_entries ≠
        envBadGeom.mem (4096 + envBadGeom.params.sq_off.ring_entries)) ∧
    queue_mmap envBadGeom 3 = .panicked
      { khead := 4096 + envBadGeom.params.sq_off.head
        ktail := 4096 + envBadGeom.params.sq_off.tail
        kring_mask := 4096 + envBadGeom.params.sq_off.ring_mask
        kring_entries := 4096 + envBadGeom.params.sq_off.ring_entries
        kflags := 4096 + envBadGeom.params.sq_off.flags
        kdropped := 4096 + envBadGeom.params.sq_off.dropped
        array := 4096 + envBadGeom.params.sq_off.array
        sqes := 8192
        sqe_head := 0
        sqe_tail := 0
        ring_sz := sq_ring_sz envBadGeom.params
        ring_ptr := 4096 }
      zeroCQ
      ⟨[mmap (sq_ring_sz envBadGeom.params) 3 IORING_OFF_SQ_RING,
        mmap (sqes_size envBadGeom.params) 3 IORING_OFF_SQES], [], []⟩ ∧
    (envBadGeom.setupRet = 3 → 0 ≤ (3 : Int) → (3 : Int) ≤ c_int_max →
      ∀ n : Nat, ∃ sq cq eff, init envBadGeom n = .panicked sq cq eff ∧
        eff.munmaps = [] ∧ eff.closedFds = []) :=
  ⟨by decide,
    C9_assert_panics_without_rollback envBadGeom 3 4096 8192 rfl rfl (by decide)⟩

/-- C10: a raw setup-syscall return that does not fit in a c_int is
narrowed to -1 by the io_uring_setup wrapper, and init then returns an
error having performed no mapping, unmapping or close; a representable
return passes through the wrapper unchanged. -/
theorem C10_setup_narrowing (r : Int) :
    (¬ (c_int_min ≤ r ∧ r ≤ c_int_max) → io_uring_setup r = -1) ∧
    ((c_int_min ≤ r ∧ r ≤ c_int_max) → io_uring_setup r = r) ∧
    (∀ env : Env, env.setupRet = r → ¬ (c_int_min ≤ r ∧ r ≤ c_int_max) →
      ∀ n : Nat, init env n = .err ⟨[], [], []⟩) := by
  refine ⟨fun h => if_neg h, fun h => if_pos h, ?_⟩
  intro env hr h n
  have hsetup : io_uring_setup env.setupRet = -1 := by
    rw [hr]
    exact if_neg h
  simp only [init, hsetup, if_pos (by omega : (-1 : Int) < 0)]

/-- C10 witness: the raw return 2^40 does not fit in a c_int, the wrapper
yields -1, init in envSetupHuge returns an error with no side effects,
and the representable return 5 passes through unchanged. -/
theorem C10_setup_narrowing_witness :
    io_uring_setup (2 ^ 40) = -1 ∧
    io_uring_setup 5 = 5 ∧
    init envSetupHuge 4 = .err ⟨[], [], []⟩ :=
  ⟨(C10_setup_narrowing (2 ^ 40)).1 (by decide),
   (C10_setup_narrowing 5).2.1 (by decide),
   (C10_setup_narrowing (2 ^ 40)).2.2 envSetupHuge rfl (by decide) 4⟩

end Iouring
